import Mathlib

/-!
Verification of the poke-orchestrator session-orchestration engine.

This file gives a shallow embedding of the core data model and operations of
the repository — the Session wrapper (src/claude/session.ts), the
SessionManager (session-manager.ts), and the PokeWebhookSender
(poke/webhook-sender.ts) — and proves or refutes the specified properties
about them.  JavaScript strings are modelled as Lean strings, JS Map objects
as association lists preserving insertion order, timers as explicit armed
flags, and the filesystem as explicit oracles/state.
-/

/- ### String helpers

JavaScript string primitives (split on a separator, startsWith) modelled at
the character-list level so that they compute inside the kernel. -/

/-- Splits a character list on a separator character (semantics of the
JavaScript split: keeps empty segments). -/
def splitChars (sep : Char) : List Char → List (List Char)
  | [] => [[]]
  | c :: rest =>
    let r := splitChars sep rest
    if c = sep then [] :: r
    else
      match r with
      | [] => [[c]]
      | h :: t => (c :: h) :: t

/-- JavaScript s.startsWith(p). -/
def jsStartsWith (s p : String) : Bool :=
  p.data.isPrefixOf s.data

/- ### Path resolution

Model of Node path.resolve(base, rel) for an absolute base path: slash-split
both arguments, drop empty and dot segments, resolve dot-dot segments
against the stack (never above the root), and render the result with a
leading slash.  An absolute rel ignores the base, as in Node. -/

/-- Splits a path string into its non-empty slash-separated components. -/
def splitPath (s : String) : List String :=
  ((splitChars '/' s.data).map (fun cs => String.mk cs)).filter (fun c => c ≠ "")

/-- Joins components with slashes. -/
def joinSlash : List String → String
  | [] => ""
  | [c] => c
  | c :: rest => c ++ "/" ++ joinSlash rest

/-- Normalizes a component list: drops dot segments and resolves dot-dot
segments, saturating at the root as Node does for absolute paths. -/
def normalizeComps (cs : List String) : List String :=
  cs.foldl (fun acc c =>
    if c = "." then acc
    else if c = ".." then acc.dropLast
    else acc ++ [c]) []

/-- Renders an absolute path from its components. -/
def renderAbs (cs : List String) : String :=
  "/" ++ joinSlash cs

/-- Node path.resolve(basePath, relPath) with basePath absolute. -/
def resolvePath (basePath relPath : String) : String :=
  let start := if jsStartsWith relPath "/" then [] else splitPath basePath
  renderAbs (normalizeComps (start ++ splitPath relPath))

/- ### Workspace file access (session-manager.ts, readSessionFile /
listSessionFiles / getSessionFileInfo)

Each of the three operations computes fullPath = resolve(workspacePath,
relativePath) and guards the filesystem call behind
fullPath.startsWith(workspacePath), throwing FileAccessError("Access
denied: Path is outside session workspace") when the guard fails. -/

/-- Error outcomes of the workspace file operations; all are
FileAccessError values in the source, distinguished here by their message. -/
inductive WsFileError where
  | accessDenied
  | fileNotFound
  | dirNotFound
deriving DecidableEq

/-- The path guard shared by readSessionFile, listSessionFiles and
getSessionFileInfo: fullPath.startsWith(workspacePath). -/
def workspaceGuard (workspacePath relPath : String) : Bool :=
  jsStartsWith (resolvePath workspacePath relPath) workspacePath

/-- Modelled from the spec: a resolved path lies inside the session
workspace root when it is the root itself or a descendant of it.  This is
the safety contract the spec states; it is compared against the guard the
code actually uses. -/
def insideWorkspaceRoot (workspacePath relPath : String) : Bool :=
  let full := resolvePath workspacePath relPath
  full = workspacePath || jsStartsWith full (workspacePath ++ "/")

/-- Abstract filesystem oracle backing the three workspace operations. -/
structure WorkspaceFs where
  fileContent : String → Option String
  dirEntries : String → Option (List (String × Bool))
  fileStat : String → Option (Nat × Bool × String)

/-- Result of getSessionFileInfo. -/
structure SessionFileInfo where
  path : String
  size : Nat
  isDirectory : Bool
  modifiedAt : String
deriving DecidableEq

/-- readSessionFile (session-manager.ts lines 242-270): resolve, guard,
then read the file at the resolved path. -/
def readSessionFile (fs : WorkspaceFs) (workspacePath relPath : String) :
    Except WsFileError String :=
  let fullPath := resolvePath workspacePath relPath
  if workspaceGuard workspacePath relPath then
    match fs.fileContent fullPath with
    | some content => Except.ok content
    | none => Except.error WsFileError.fileNotFound
  else Except.error WsFileError.accessDenied

/-- Entry path rendering used by listSessionFiles. -/
def listEntryPath (relPath name : String) : String :=
  if relPath = "" then name else relPath ++ "/" ++ name

/-- listSessionFiles (session-manager.ts lines 276-315): resolve, guard,
then list the directory at the resolved path, suffixing directories. -/
def listSessionFiles (fs : WorkspaceFs) (workspacePath relPath : String) :
    Except WsFileError (List String) :=
  let fullPath := resolvePath workspacePath relPath
  if workspaceGuard workspacePath relPath then
    match fs.dirEntries fullPath with
    | some entries =>
      Except.ok (entries.map (fun e =>
        if e.2 then listEntryPath relPath e.1 ++ "/" else listEntryPath relPath e.1))
    | none => Except.error WsFileError.dirNotFound
  else Except.error WsFileError.accessDenied

/-- getSessionFileInfo (session-manager.ts lines 321-359): resolve, guard,
then stat the resolved path. -/
def getSessionFileInfo (fs : WorkspaceFs) (workspacePath relPath : String) :
    Except WsFileError SessionFileInfo :=
  let fullPath := resolvePath workspacePath relPath
  if workspaceGuard workspacePath relPath then
    match fs.fileStat fullPath with
    | some st =>
      Except.ok { path := relPath, size := st.1, isDirectory := st.2.1, modifiedAt := st.2.2 }
    | none => Except.error WsFileError.fileNotFound
  else Except.error WsFileError.accessDenied

/-- Filesystem with content only at a sibling directory of the workspace
root /ws/s1: the directory /ws/s1-evil is NOT inside that workspace. -/
def siblingFs : WorkspaceFs where
  fileContent := fun p => if p = "/ws/s1-evil/secret.txt" then some "outside-content" else none
  dirEntries := fun p => if p = "/ws/s1-evil" then some [("secret.txt", false)] else none
  fileStat := fun p => if p = "/ws/s1-evil/secret.txt" then some (5, false, "t0") else none

/- ### Webhook delivery (poke/webhook-sender.ts, sendToPoke)

sendToPoke loops for attempt in [0, maxRetries).  A 2xx response returns
success; a 4xx response logs and returns without retrying; any other
status or a transport exception falls through to the retry path, sleeping
2 ^ attempt * 100 ms when attempt < maxRetries - 1.  After the loop the
batch is dropped. -/

/-- Response of the webhook endpoint to one attempt. -/
inductive PokeResponse where
  | status (code : Nat)
  | transportError
deriving DecidableEq

/-- Final outcome of sendToPoke for one batch. -/
inductive SendOutcome where
  | delivered
  | droppedClientError
  | droppedAfterRetries
deriving DecidableEq

/-- Observable trace of one sendToPoke call: how many HTTP attempts were
made, which backoff sleeps happened between them, and the outcome. -/
structure SendTrace where
  attempts : Nat
  backoffSleepsMs : List Nat
  outcome : SendOutcome
deriving DecidableEq

/-- Classification of a response in sendToPoke: some outcome ends the loop,
none falls through to the retry path (5xx, other statuses, transport). -/
def responseClass (r : PokeResponse) : Option SendOutcome :=
  match r with
  | PokeResponse.status c =>
    if 200 ≤ c ∧ c < 300 then some SendOutcome.delivered
    else if 400 ≤ c ∧ c < 500 then some SendOutcome.droppedClientError
    else none
  | PokeResponse.transportError => none

/-- Backoff delay before the next attempt: 2 ^ attempt * 100 ms. -/
def backoffMs (attempt : Nat) : Nat := 2 ^ attempt * 100

/-- The attempt loop of sendToPoke, with fuel = maxRetries - attempt. -/
def sendLoop (responses : Nat → PokeResponse) (maxRetries attempt fuel : Nat) : SendTrace :=
  match fuel with
  | 0 => { attempts := 0, backoffSleepsMs := [], outcome := SendOutcome.droppedAfterRetries }
  | Nat.succ fuel1 =>
    match responseClass (responses attempt) with
    | some out => { attempts := 1, backoffSleepsMs := [], outcome := out }
    | none =>
      let rest := sendLoop responses maxRetries (attempt + 1) fuel1
      { attempts := rest.attempts + 1,
        backoffSleepsMs :=
          (if attempt < maxRetries - 1 then [backoffMs attempt] else []) ++ rest.backoffSleepsMs,
        outcome := rest.outcome }

/-- sendToPoke(request, maxRetries): run the attempt loop from attempt 0.
The source default for maxRetries is 3. -/
def sendToPoke (responses : Nat → PokeResponse) (maxRetries : Nat) : SendTrace :=
  sendLoop responses maxRetries 0 maxRetries

/-- Default retry bound of sendToPoke in the source. -/
def sendToPokeMaxRetries : Nat := 3

/- ### Session (claude/session.ts)

One state record holds the fields of the Session class that the claims
touch: status, permissionMode, inPlanMode, cancelled, the input-channel
closed flag, the text aggregation buffer and its timer flag, the tool-call
correlation maps, and the list of events emitted so far (in order). -/

inductive SessionStatus where
  | idle
  | active
  | terminated
deriving DecidableEq

inductive PermissionMode where
  | bypassPermissions
  | plan
deriving DecidableEq

inductive EndReason where
  | completed
  | cancelled
  | error
deriving DecidableEq

/-- Session events (claude/types.ts), with payloads trimmed to the fields
the claims mention. -/
inductive SessionEvent where
  | message_chunk (content : String)
  | thinking (content : String)
  | tool_call (toolCallId toolName : String)
  | tool_result (toolCallId toolName : String) (isError : Bool)
  | plan_update
  | plan_mode_change (inPlanMode : Bool)
  | question (question : String)
  | permission_request (toolName : String)
  | session_ended (reason : EndReason)
  | error (message : String)
deriving DecidableEq

/-- Association-list lookup: the first entry with the given key (JS Map
get under unique keys). -/
def alGet {α : Type} : List (String × α) → String → Option α
  | [], _ => none
  | p :: rest, k => if p.1 = k then some p.2 else alGet rest k

/-- Association-list set: replaces the first entry with the key in place,
or appends a new entry (JS Map set preserves insertion order). -/
def alSet {α : Type} : List (String × α) → String → α → List (String × α)
  | [], k, v => [(k, v)]
  | p :: rest, k, v => if p.1 = k then (k, v) :: rest else p :: alSet rest k v

/-- Association-list delete (JS Map delete under unique keys). -/
def alErase {α : Type} (m : List (String × α)) (k : String) : List (String × α) :=
  m.filter (fun p => p.1 ≠ k)

/-- Mutable state of one Session object. -/
structure SessionState where
  status : SessionStatus
  permissionMode : PermissionMode
  inPlanMode : Bool
  cancelled : Bool
  inputEnded : Bool
  textBuffer : String
  textFlushTimerArmed : Bool
  toolCallNames : List (String × String)
  toolCallTimers : List String
  emitted : List SessionEvent
deriving DecidableEq

/-- Session constructor state (session.ts lines 72-82). -/
def initSession (mode : PermissionMode) : SessionState :=
  { status := SessionStatus.idle, permissionMode := mode, inPlanMode := false,
    cancelled := false, inputEnded := false, textBuffer := "",
    textFlushTimerArmed := false, toolCallNames := [], toolCallTimers := [],
    emitted := [] }

/-- emitEvent: appends the event to the outbound stream. -/
def emitEvent (s : SessionState) (e : SessionEvent) : SessionState :=
  { s with emitted := s.emitted ++ [e] }

/-- bufferTextChunk (session.ts lines 280-289): append the fragment to the
buffer; arm the flush timer if it is not already armed. -/
def bufferTextChunk (s : SessionState) (text : String) : SessionState :=
  let s1 := { s with textBuffer := s.textBuffer ++ text }
  if s1.textFlushTimerArmed then s1 else { s1 with textFlushTimerArmed := true }

/-- flushTextBuffer (session.ts lines 295-306): disarm the timer; if the
buffer is non-empty, clear it and emit one message_chunk with its content. -/
def flushTextBuffer (s : SessionState) : SessionState :=
  let s1 := { s with textFlushTimerArmed := false }
  if s1.textBuffer = "" then s1
  else emitEvent { s1 with textBuffer := "" } (SessionEvent.message_chunk s1.textBuffer)

/-- trackToolCall (session.ts lines 312-321): record the name and (re)arm
a TTL timer for the call id. -/
def trackToolCall (s : SessionState) (toolCallId toolName : String) : SessionState :=
  { s with toolCallNames := alSet s.toolCallNames toolCallId toolName,
           toolCallTimers := (s.toolCallTimers.filter (fun t => t ≠ toolCallId)) ++ [toolCallId] }

/-- TTL expiry of a tracked tool call (the setTimeout body in
trackToolCall); a cleared timer never fires, modelled by the armed guard. -/
def toolCallTtlExpire (s : SessionState) (toolCallId : String) : SessionState :=
  if s.toolCallTimers.any (fun t => t = toolCallId) then
    { s with toolCallNames := alErase s.toolCallNames toolCallId,
             toolCallTimers := s.toolCallTimers.filter (fun t => t ≠ toolCallId) }
  else s

/-- getToolName (session.ts lines 326-335): look the name up (default
"unknown"), then remove the tracking entry and cancel its timer. -/
def getToolName (s : SessionState) (toolCallId : String) : String × SessionState :=
  let name := (alGet s.toolCallNames toolCallId).getD "unknown"
  (name, { s with toolCallNames := alErase s.toolCallNames toolCallId,
                  toolCallTimers := s.toolCallTimers.filter (fun t => t ≠ toolCallId) })

/-- Handling of one tool_result content block in processMessages
(session.ts lines 212-220): correlate the name and emit one tool_result. -/
def handleToolResultBlock (s : SessionState) (toolCallId : String) (isError : Bool) :
    SessionState :=
  let r := getToolName s toolCallId
  emitEvent r.2 (SessionEvent.tool_result toolCallId r.1 isError)

/-- sendPrompt (session.ts lines 340-345): unconditionally set status to
active, reset cancelled, push the prompt. -/
def sendPrompt (s : SessionState) : SessionState :=
  { s with status := SessionStatus.active, cancelled := false }

/-- sendSlashCommand (session.ts lines 350-361): set active, reset
cancelled; the plan command also raises inPlanMode and emits
plan_mode_change. -/
def sendSlashCommand (s : SessionState) (command : String) : SessionState :=
  let s1 := { s with status := SessionStatus.active, cancelled := false }
  if command = "plan" then
    emitEvent { s1 with inPlanMode := true } (SessionEvent.plan_mode_change true)
  else s1

/-- cancel (session.ts lines 366-371): mark cancelled, force status idle,
emit session_ended(cancelled). -/
def cancel (s : SessionState) : SessionState :=
  emitEvent { s with cancelled := true, status := SessionStatus.idle }
    (SessionEvent.session_ended EndReason.cancelled)

/-- terminate (session.ts lines 376-394): mark cancelled and terminated,
flush the text buffer, clear tool-call tracking, end the input channel. -/
def terminate (s : SessionState) : SessionState :=
  let s1 := flushTextBuffer { s with cancelled := true, status := SessionStatus.terminated }
  { s1 with toolCallNames := [], toolCallTimers := [], inputEnded := true }

/-- setPermissionMode (session.ts lines 399-408): set the mode; leaving
plan mode emits plan_mode_change(false).  Status is untouched. -/
def setPermissionMode (s : SessionState) (mode : PermissionMode) : SessionState :=
  let s1 := { s with permissionMode := mode }
  if s1.inPlanMode ∧ mode ≠ PermissionMode.plan then
    emitEvent { s1 with inPlanMode := false } (SessionEvent.plan_mode_change false)
  else s1

/-- The result-message case of processMessages (session.ts lines 226-235):
both subtypes set status back to idle and emit session_ended. -/
def handleResultMessage (s : SessionState) (success : Bool) : SessionState :=
  if success then
    emitEvent { s with status := SessionStatus.idle }
      (SessionEvent.session_ended EndReason.completed)
  else
    emitEvent { s with status := SessionStatus.idle }
      (SessionEvent.session_ended EndReason.error)

/-- The catch handler of startMessageLoop (session.ts lines 155-162): a
fatal processing-loop error emits an error event, marks the session
terminated and ends the input channel. -/
def fatalLoopError (s : SessionState) (msg : String) : SessionState :=
  let s1 := emitEvent s (SessionEvent.error msg)
  { s1 with status := SessionStatus.terminated, inputEnded := true }

/- ### SessionManager (claude/session-manager.ts)

The manager state carries the session registry (a Map keyed by session id),
the sessionIds array last persisted to the lock file, the set of workspace
directories created, the pending question/permission registries (keyed by
correlation id, valued by owning session id), and the message-chunk cache.
writeLockFile persists Array.from(sessions.keys()); createSession and
terminateSession call it synchronously after mutating the registry. -/

inductive MgrError where
  | sessionNotFound
  | sessionLimit
  | questionNotFound
deriving DecidableEq

structure ManagerState where
  maxSessions : Nat
  sessions : List (String × SessionState)
  lockSessionIds : List String
  workspaceDirs : List String
  pendingQuestionOwners : List (String × String)
  pendingPermissionOwners : List (String × String)
  messageChunks : List (String × List String)
deriving DecidableEq

/-- createSession (session-manager.ts lines 554-579): reject at capacity
before any mutation; otherwise create the workspace directory, register
the new Session, and rewrite the lock file from the registry keys.  The
fresh id comes from randomUUID; it is a parameter here. -/
def createSession (st : ManagerState) (newId : String) :
    Except MgrError String × ManagerState :=
  if st.sessions.length ≥ st.maxSessions then
    (Except.error MgrError.sessionLimit, st)
  else
    let st1 := { st with workspaceDirs := st.workspaceDirs ++ [newId] }
    let st2 := { st1 with
      sessions := alSet st1.sessions newId (initSession PermissionMode.bypassPermissions) }
    let st3 := { st2 with lockSessionIds := st2.sessions.map Prod.fst }
    (Except.ok newId, st3)

/-- terminateSession (session-manager.ts lines 625-656): unknown id
throws SessionNotFoundError; otherwise terminate the Session, drop it from
the registry, force-reject and remove its pending questions and
permissions, clear its cached chunks, and rewrite the lock file. -/
def terminateSession (st : ManagerState) (sid : String) :
    Except MgrError Unit × ManagerState :=
  match alGet st.sessions sid with
  | none => (Except.error MgrError.sessionNotFound, st)
  | some sess =>
    let _ := terminate sess
    let st1 := { st with sessions := alErase st.sessions sid }
    let st2 := { st1 with
      pendingQuestionOwners := st1.pendingQuestionOwners.filter (fun p => p.2 ≠ sid),
      pendingPermissionOwners := st1.pendingPermissionOwners.filter (fun p => p.2 ≠ sid) }
    let st3 := { st2 with messageChunks := alErase st2.messageChunks sid }
    let st4 := { st3 with lockSessionIds := st3.sessions.map Prod.fst }
    (Except.ok (), st4)

/-- The message_chunk branch of handleSessionEvent (session-manager.ts
lines 455-464): push the content onto the per-session cache, creating the
array on first use. -/
def cacheMessageChunk (st : ManagerState) (sid content : String) : ManagerState :=
  let prev := (alGet st.messageChunks sid).getD []
  { st with messageChunks := alSet st.messageChunks sid (prev ++ [content]) }

/-- readMessageHistory (session-manager.ts lines 739-747): unknown session
id throws SessionNotFoundError; otherwise return the cached chunks (empty
if none) and delete the cache entry. -/
def readMessageHistory (st : ManagerState) (sid : String) :
    Except MgrError (List String) × ManagerState :=
  if (alGet st.sessions sid).isSome then
    (Except.ok ((alGet st.messageChunks sid).getD []),
     { st with messageChunks := alErase st.messageChunks sid })
  else (Except.error MgrError.sessionNotFound, st)

/- ### Pending-question lifecycle (session-manager.ts lines 467-502 and
676-684)

Each question gets a fresh correlation id, a map entry, a 5-minute expiry
timer, and a closure-captured completed flag shared by the resolver and
the timer callback.  Since correlation ids are fresh UUIDs, the lifecycle
of one question is independent of every other entry; it is modelled as one
cell.  answerQuestion looks the id up (unknown id throws
SessionStateError "Question not found"), cancels the timer, invokes the
resolver (whose body is guarded by the completed flag) and deletes the
entry.  The timer callback is guarded by the completed flag, rejects, and
deletes the entry. -/

/-- Question expiry deadline in ms (session-manager.ts line 479). -/
def questionTimeoutMs : Nat := 300000

/-- Lifecycle state of one pending question: map membership, the
closure-captured completed flag, whether the expiry timer is still armed,
and how many times the resolver and reject bodies have run. -/
structure QuestionCell where
  inMap : Bool
  completed : Bool
  timerArmed : Bool
  resolverRuns : Nat
  rejectRuns : Nat
deriving DecidableEq

/-- Registration of a new question in handleSessionEvent: entry stored,
timer armed, nothing resolved yet. -/
def registerQuestion : QuestionCell :=
  { inMap := true, completed := false, timerArmed := true,
    resolverRuns := 0, rejectRuns := 0 }

/-- The expiry-timer callback: a cancelled timer never fires; otherwise
the completed guard, then reject and delete if the entry is still present. -/
def questionTimeoutFire (c : QuestionCell) : QuestionCell :=
  if c.timerArmed = false then c
  else
    let c1 := { c with timerArmed := false }
    if c1.completed then c1
    else
      let c2 := { c1 with completed := true }
      if c2.inMap then { c2 with rejectRuns := c2.rejectRuns + 1, inMap := false }
      else c2

/-- answerQuestion (session-manager.ts lines 676-684): unknown id throws;
otherwise cancel the timer, run the resolver (guarded by completed), and
delete the entry. -/
def answerQuestion (c : QuestionCell) : Except MgrError QuestionCell :=
  if c.inMap = false then Except.error MgrError.questionNotFound
  else
    let c1 := { c with timerArmed := false }
    let c2 :=
      if c1.completed then c1
      else { c1 with completed := true, resolverRuns := c1.resolverRuns + 1 }
    Except.ok { c2 with inMap := false }

/-- Cell state after a question is answered before its deadline. -/
def answeredQuestionCell : QuestionCell :=
  { inMap := false, completed := true, timerArmed := false,
    resolverRuns := 1, rejectRuns := 0 }

/-- Cell state after a question expires unanswered. -/
def expiredQuestionCell : QuestionCell :=
  { inMap := false, completed := true, timerArmed := false,
    resolverRuns := 0, rejectRuns := 1 }

/- ### Startup orphan cleanup (session-manager.ts, initialize /
cleanupOrphanedSessions / writeLockFile)

The filesystem state is the lock record (if the lock file exists and
parses) and the names of the directories under the workspace root.
cleanupOrphanedSessions does nothing when the lock is absent or the
recorded pid is alive; for a dead pid it removes every directory listed in
sessionIds and then every remaining non-hidden directory.  initialize runs
the cleanup and then writes a fresh lock record for the current process. -/

structure LockRecord where
  pid : Nat
  sessionIds : List String
deriving DecidableEq

structure FsState where
  lockRecord : Option LockRecord
  workspaceDirNames : List String
deriving DecidableEq

/-- Hidden directory names (entry.name.startsWith with a dot). -/
def isHiddenName (name : String) : Bool := jsStartsWith name "."

/-- cleanupOrphanedSessions (session-manager.ts lines 143-190). -/
def cleanupOrphanedSessions (alive : Nat → Bool) (fs : FsState) : FsState :=
  match fs.lockRecord with
  | none => fs
  | some lock =>
    if alive lock.pid then fs
    else
      let dirs1 := fs.workspaceDirNames.filter (fun d => lock.sessionIds.contains d = false)
      let dirs2 := dirs1.filter (fun d => isHiddenName d)
      { fs with workspaceDirNames := dirs2 }

/-- writeLockFile at startup (session-manager.ts lines 105-118): a fresh
record for the current pid with the (empty) registry keys. -/
def writeFreshLockRecord (pid : Nat) (fs : FsState) : FsState :=
  { fs with lockRecord := some { pid := pid, sessionIds := [] } }

/-- The startup sequence of the private initialize method (session-manager.ts
lines 74-78): orphan cleanup, then the fresh lock file. -/
def startupInit (alive : Nat → Bool) (pid : Nat) (fs : FsState) : FsState :=
  writeFreshLockRecord pid (cleanupOrphanedSessions alive fs)

/- ### Shared helper lemmas -/

/-- Looking up the key just set finds the value just set. -/
theorem alGet_alSet {α : Type} (m : List (String × α)) (k : String) (v : α) :
    alGet (alSet m k v) k = some v := by
  induction m with
  | nil => simp [alSet, alGet]
  | cons p rest ih =>
    by_cases h : p.1 = k
    · simp [alSet, alGet, h]
    · simp [alSet, alGet, h, ih]

/-- Looking up a deleted key finds nothing. -/
theorem alGet_alErase {α : Type} (m : List (String × α)) (k : String) :
    alGet (alErase m k) k = none := by
  induction m with
  | nil => rfl
  | cons p rest ih =>
    by_cases h : p.1 = k
    · simpa [alErase, List.filter_cons, h] using ih
    · simpa [alErase, alGet, List.filter_cons, h] using ih

/-- A list ending in the element satisfies the any-check for it. -/
theorem any_append_singleton (l : List String) (id : String) :
    (l ++ [id]).any (fun t => t = id) = true := by
  simp

/-- Prepending the empty string is the identity. -/
theorem empty_append_str (g : String) : "" ++ g = g := by
  cases g with
  | mk data => rfl

/- ### Claim C5: pending-question lifecycle -/

/-- Claim C5: a question answered before its 5-minute deadline runs the
resolver exactly once, cancels the expiry timer and removes the entry; an
unanswered question is rejected and removed exactly once by the expiry
timer (which fires at questionTimeoutMs = 5 minutes); and a later answer
for the same id — after resolution or after expiry — fails with the
not-found error, while a late timer fire changes nothing. -/
theorem question_lifecycle :
    questionTimeoutMs = 5 * 60 * 1000 ∧
    answerQuestion registerQuestion = Except.ok answeredQuestionCell ∧
    answeredQuestionCell.resolverRuns = 1 ∧
    answeredQuestionCell.rejectRuns = 0 ∧
    answeredQuestionCell.timerArmed = false ∧
    answeredQuestionCell.inMap = false ∧
    questionTimeoutFire answeredQuestionCell = answeredQuestionCell ∧
    answerQuestion answeredQuestionCell = Except.error MgrError.questionNotFound ∧
    questionTimeoutFire registerQuestion = expiredQuestionCell ∧
    expiredQuestionCell.rejectRuns = 1 ∧
    expiredQuestionCell.resolverRuns = 0 ∧
    expiredQuestionCell.inMap = false ∧
    questionTimeoutFire expiredQuestionCell = expiredQuestionCell ∧
    answerQuestion expiredQuestionCell = Except.error MgrError.questionNotFound :=
  ⟨rfl, rfl, rfl, rfl, rfl, rfl, rfl, rfl, rfl, rfl, rfl, rfl, rfl, rfl⟩

/- ### Claim C1: workspace path safety -/

/-- Claim C1 (code bug): the guard fullPath.startsWith(workspacePath) does
not reject every path resolving outside the workspace root.  For workspace
root /ws/s1, the relative path "../s1-evil/secret.txt" resolves to
/ws/s1-evil/secret.txt — outside the workspace — yet the guard accepts it
because the string "/ws/s1-evil/secret.txt" starts with "/ws/s1", and all
three operations perform the filesystem access on the outside path. -/
theorem workspace_path_guard_escape :
    insideWorkspaceRoot "/ws/s1" "../s1-evil/secret.txt" = false ∧
    resolvePath "/ws/s1" "../s1-evil/secret.txt" = "/ws/s1-evil/secret.txt" ∧
    workspaceGuard "/ws/s1" "../s1-evil/secret.txt" = true ∧
    readSessionFile siblingFs "/ws/s1" "../s1-evil/secret.txt" = Except.ok "outside-content" ∧
    insideWorkspaceRoot "/ws/s1" "../s1-evil" = false ∧
    listSessionFiles siblingFs "/ws/s1" "../s1-evil" = Except.ok ["../s1-evil/secret.txt"] ∧
    getSessionFileInfo siblingFs "/ws/s1" "../s1-evil/secret.txt" =
      Except.ok { path := "../s1-evil/secret.txt", size := 5, isDirectory := false,
                  modifiedAt := "t0" } := by
  refine ⟨by decide, by decide, by decide, ?_, by decide, ?_, ?_⟩ <;> rfl

/- ### Claim C3: session status state machine -/

/-- Claim C3 counterexample: terminated is not absorbing.  Terminating a
fresh session and then calling sendPrompt on it moves the status to
active, not terminated. -/
theorem session_terminated_not_absorbing :
    (terminate (initSession PermissionMode.bypassPermissions)).status =
      SessionStatus.terminated ∧
    (sendPrompt (terminate (initSession PermissionMode.bypassPermissions))).status =
      SessionStatus.active ∧
    SessionStatus.active ≠ SessionStatus.terminated := by
  decide

/-- Claim C3 amended: sendPrompt and sendSlashCommand set the status of
any session — idle, active or terminated — to active; a terminal result
message sets any status to idle; cancel sets any status to idle; terminate
and a fatal processing-loop error set any status to terminated; and
setPermissionMode never changes the status.  In particular terminated is
not absorbing: sendPrompt/sendSlashCommand move a terminated session to
active and cancel moves it to idle; only setPermissionMode preserves it. -/
theorem session_status_machine (s : SessionState) (command : String)
    (mode : PermissionMode) (success : Bool) (msg : String) :
    (sendPrompt s).status = SessionStatus.active ∧
    (sendSlashCommand s command).status = SessionStatus.active ∧
    (handleResultMessage s success).status = SessionStatus.idle ∧
    (cancel s).status = SessionStatus.idle ∧
    (terminate s).status = SessionStatus.terminated ∧
    (fatalLoopError s msg).status = SessionStatus.terminated ∧
    (setPermissionMode s mode).status = s.status := by
  refine ⟨rfl, ?_, ?_, rfl, ?_, rfl, ?_⟩
  · simp only [sendSlashCommand, emitEvent]
    split <;> rfl
  · simp only [handleResultMessage, emitEvent]
    split <;> rfl
  · simp only [terminate, flushTextBuffer, emitEvent]
    split <;> rfl
  · simp only [setPermissionMode, emitEvent]
    split <;> rfl

/- ### Claim C6: capacity check -/

/-- Claim C6: once the registry holds maxSessions sessions, createSession
fails with the session-limit (capacity) error and returns the manager
state unchanged — no registry entry, no workspace directory, no lock-file
change, nothing. -/
theorem create_session_capacity (st : ManagerState) (newId : String)
    (h : st.sessions.length ≥ st.maxSessions) :
    (createSession st newId).1 = Except.error MgrError.sessionLimit ∧
    (createSession st newId).2 = st := by
  simp [createSession, h]

/-- Sample idle session used by concrete witnesses. -/
def sampleSession : SessionState := initSession PermissionMode.bypassPermissions

/-- Sample manager holding one session s1 with one cached chunk. -/
def sampleManager : ManagerState :=
  { maxSessions := 2, sessions := [("s1", sampleSession)], lockSessionIds := ["s1"],
    workspaceDirs := ["s1"], pendingQuestionOwners := [], pendingPermissionOwners := [],
    messageChunks := [("s1", ["hello"])] }

/-- Sample manager at capacity (maxSessions = 1, one session registered). -/
def fullManager : ManagerState :=
  { maxSessions := 1, sessions := [("s1", sampleSession)], lockSessionIds := ["s1"],
    workspaceDirs := ["s1"], pendingQuestionOwners := [], pendingPermissionOwners := [],
    messageChunks := [] }

/-- Witness for create_session_capacity at a concrete manager at capacity. -/
theorem create_session_capacity_witness :
    (createSession fullManager "s9").1 = Except.error MgrError.sessionLimit ∧
    (createSession fullManager "s9").2 = fullManager :=
  create_session_capacity fullManager "s9" (by decide)

/- ### Claim C2: webhook retry policy -/

/-- The send loop depends on the responses only through their
classification. -/
theorem sendLoop_respClass_congr (r1 r2 : Nat → PokeResponse) (m : Nat)
    (h : ∀ n, responseClass (r1 n) = responseClass (r2 n)) :
    ∀ f a, sendLoop r1 m a f = sendLoop r2 m a f := by
  intro f
  induction f with
  | zero => intro a; rfl
  | succ f ih =>
    intro a
    simp only [sendLoop]
    rw [h a]
    cases hr : responseClass (r2 a) with
    | none => simp [ih (a + 1)]
    | some out => rfl

/-- Claim C2 counterexample: a batch whose sends keep answering 500 is
attempted 3 times in total, i.e. retried only 2 times after the initial
send, with 2 backoff sleeps — not retried 3 times as the claim states. -/
theorem webhook_retry_count_counterexample :
    (sendToPoke (fun _ => PokeResponse.status 500) sendToPokeMaxRetries).attempts = 3 ∧
    (sendToPoke (fun _ => PokeResponse.status 500) sendToPokeMaxRetries).attempts - 1 = 2 ∧
    (sendToPoke (fun _ => PokeResponse.status 500) sendToPokeMaxRetries).attempts - 1 ≠ 3 ∧
    (sendToPoke (fun _ => PokeResponse.status 500) sendToPokeMaxRetries).backoffSleepsMs
      = [100, 200] ∧
    (sendToPoke (fun _ => PokeResponse.status 500) sendToPokeMaxRetries).outcome
      = SendOutcome.droppedAfterRetries := by
  decide

/-- Claim C2 amended: a batch receiving persistent 500-class responses is
attempted exactly 3 times in total (the initial send plus 2 retries) with
doubling backoff delays of 100 ms then 200 ms before being dropped, and a
batch receiving a 400-class response is dropped after the single attempt
and never retried. -/
theorem webhook_retry_amended (c5 c4 : Nat)
    (h5a : 500 ≤ c5) (h5b : c5 < 600) (h4a : 400 ≤ c4) (h4b : c4 < 500) :
    sendToPoke (fun _ => PokeResponse.status c5) sendToPokeMaxRetries =
      { attempts := 3, backoffSleepsMs := [backoffMs 0, backoffMs 1],
        outcome := SendOutcome.droppedAfterRetries } ∧
    backoffMs 0 = 100 ∧
    backoffMs 1 = 2 * backoffMs 0 ∧
    sendToPoke (fun _ => PokeResponse.status c4) sendToPokeMaxRetries =
      { attempts := 1, backoffSleepsMs := [],
        outcome := SendOutcome.droppedClientError } := by
  have h5 : responseClass (PokeResponse.status c5) = none := by
    show (if 200 ≤ c5 ∧ c5 < 300 then some SendOutcome.delivered
      else if 400 ≤ c5 ∧ c5 < 500 then some SendOutcome.droppedClientError
      else none) = none
    rw [if_neg (by omega), if_neg (by omega)]
  have h4 : responseClass (PokeResponse.status c4) = some SendOutcome.droppedClientError := by
    show (if 200 ≤ c4 ∧ c4 < 300 then some SendOutcome.delivered
      else if 400 ≤ c4 ∧ c4 < 500 then some SendOutcome.droppedClientError
      else none) = some SendOutcome.droppedClientError
    rw [if_neg (by omega), if_pos (by omega)]
  have e5 := sendLoop_respClass_congr (fun _ => PokeResponse.status c5)
    (fun _ => PokeResponse.status 500) sendToPokeMaxRetries
    (fun _ => by
      show responseClass (PokeResponse.status c5) = responseClass (PokeResponse.status 500)
      rw [h5]; decide)
    sendToPokeMaxRetries 0
  have e4 := sendLoop_respClass_congr (fun _ => PokeResponse.status c4)
    (fun _ => PokeResponse.status 404) sendToPokeMaxRetries
    (fun _ => by
      show responseClass (PokeResponse.status c4) = responseClass (PokeResponse.status 404)
      rw [h4]; decide)
    sendToPokeMaxRetries 0
  refine ⟨?_, rfl, rfl, ?_⟩
  · show sendLoop (fun _ => PokeResponse.status c5) sendToPokeMaxRetries 0
      sendToPokeMaxRetries = _
    rw [e5]
    rfl
  · show sendLoop (fun _ => PokeResponse.status c4) sendToPokeMaxRetries 0
      sendToPokeMaxRetries = _
    rw [e4]
    rfl

/-- Witness for webhook_retry_amended at the concrete codes 503 and 404. -/
theorem webhook_retry_amended_witness :
    sendToPoke (fun _ => PokeResponse.status 503) sendToPokeMaxRetries =
      { attempts := 3, backoffSleepsMs := [backoffMs 0, backoffMs 1],
        outcome := SendOutcome.droppedAfterRetries } ∧
    sendToPoke (fun _ => PokeResponse.status 404) sendToPokeMaxRetries =
      { attempts := 1, backoffSleepsMs := [],
        outcome := SendOutcome.droppedClientError } :=
  ⟨(webhook_retry_amended 503 404 (by decide) (by decide) (by decide) (by decide)).1,
   (webhook_retry_amended 503 404 (by decide) (by decide) (by decide) (by decide)).2.2.2⟩

/- ### Claim C4: lock file mirrors the registry -/

/-- Claim C4: after every completed createSession and every completed
terminateSession, the sessionIds persisted in the lock file are exactly
the keys of the in-memory session registry (writeLockFile copies
Array.from(sessions.keys()) synchronously after the mutation). -/
theorem lock_file_mirrors_registry (st : ManagerState) (newId sid : String) :
    ((createSession st newId).1 = Except.ok newId →
      ((createSession st newId).2).lockSessionIds =
        ((createSession st newId).2).sessions.map Prod.fst) ∧
    ((terminateSession st sid).1 = Except.ok () →
      ((terminateSession st sid).2).lockSessionIds =
        ((terminateSession st sid).2).sessions.map Prod.fst) := by
  constructor
  · intro h
    by_cases hc : st.sessions.length ≥ st.maxSessions
    · simp [createSession, hc] at h
    · simp [createSession, hc]
  · intro h
    cases hs : alGet st.sessions sid with
    | none => simp [terminateSession, hs] at h
    | some sess => simp [terminateSession, hs]

/-- Witness for lock_file_mirrors_registry: creating s2 in, and
terminating s1 from, the sample manager. -/
theorem lock_file_mirrors_registry_witness :
    ((createSession sampleManager "s2").2).lockSessionIds =
      ((createSession sampleManager "s2").2).sessions.map Prod.fst ∧
    ((terminateSession sampleManager "s1").2).lockSessionIds =
      ((terminateSession sampleManager "s1").2).sessions.map Prod.fst :=
  ⟨(lock_file_mirrors_registry sampleManager "s2" "s1").1 (by rfl),
   (lock_file_mirrors_registry sampleManager "s2" "s1").2 (by rfl)⟩

/- ### Claim C7: text aggregation window -/

/-- Folding fragments into the buffer concatenates them onto the buffer in
order and emits nothing. -/
theorem bufferFold_spec (frs : List String) (s : SessionState) :
    (frs.foldl bufferTextChunk s).textBuffer =
      frs.foldl (fun r t => r ++ t) s.textBuffer ∧
    (frs.foldl bufferTextChunk s).emitted = s.emitted := by
  induction frs generalizing s with
  | nil => exact ⟨rfl, rfl⟩
  | cons t rest ih =>
    have hb : (bufferTextChunk s t).textBuffer = s.textBuffer ++ t := by
      cases h : s.textFlushTimerArmed <;> simp [bufferTextChunk, h]
    have he : (bufferTextChunk s t).emitted = s.emitted := by
      cases h : s.textFlushTimerArmed <;> simp [bufferTextChunk, h]
    simp only [List.foldl_cons]
    refine ⟨?_, ?_⟩
    · rw [(ih (bufferTextChunk s t)).1, hb]
    · rw [(ih (bufferTextChunk s t)).2, he]

/-- Behaviour of one flush on the emitted stream and the buffer. -/
theorem flushTextBuffer_spec (s : SessionState) :
    (s.textBuffer = "" → (flushTextBuffer s).emitted = s.emitted) ∧
    (s.textBuffer ≠ "" →
      (flushTextBuffer s).emitted =
        s.emitted ++ [SessionEvent.message_chunk s.textBuffer]) ∧
    (flushTextBuffer s).textBuffer = "" := by
  by_cases h : s.textBuffer = ""
  · refine ⟨fun _ => ?_, fun hne => absurd h hne, ?_⟩
    · unfold flushTextBuffer
      rw [if_pos h]
    · unfold flushTextBuffer
      rw [if_pos h]
      exact h
  · refine ⟨fun he => absurd he h, fun _ => ?_, ?_⟩
    · unfold flushTextBuffer emitEvent
      rw [if_neg h]
    · unfold flushTextBuffer emitEvent
      rw [if_neg h]

/-- Claim C7 counterexample: a window consisting of one empty text
fragment emits no message_chunk at all on flush — not exactly one event
with the (empty) concatenation as content. -/
theorem text_agg_empty_fragment_counterexample :
    (flushTextBuffer (bufferTextChunk (initSession PermissionMode.bypassPermissions)
      "")).emitted = [] ∧
    (flushTextBuffer (bufferTextChunk (initSession PermissionMode.bypassPermissions)
      "")).emitted ≠ [SessionEvent.message_chunk ""] := by
  decide

/-- Claim C7 amended: starting from an empty buffer, folding N fragments
into the buffer within one window and then flushing emits exactly one
message_chunk whose content is the in-order concatenation of the
fragments, provided that concatenation is non-empty; a window of only
empty fragments emits nothing.  A non-empty fragment arriving after the
flush starts a new buffer that a later flush emits as a separate
message_chunk event. -/
theorem text_aggregation_amended (s : SessionState) (frs : List String) (g : String)
    (hbuf : s.textBuffer = "") :
    (String.join frs ≠ "" →
      (flushTextBuffer (frs.foldl bufferTextChunk s)).emitted =
        s.emitted ++ [SessionEvent.message_chunk (String.join frs)]) ∧
    (String.join frs = "" →
      (flushTextBuffer (frs.foldl bufferTextChunk s)).emitted = s.emitted) ∧
    (flushTextBuffer (frs.foldl bufferTextChunk s)).textBuffer = "" ∧
    (g ≠ "" →
      (flushTextBuffer (bufferTextChunk (flushTextBuffer
          (frs.foldl bufferTextChunk s)) g)).emitted =
        (flushTextBuffer (frs.foldl bufferTextChunk s)).emitted ++
          [SessionEvent.message_chunk g]) := by
  have hjoin : (frs.foldl bufferTextChunk s).textBuffer = String.join frs := by
    rw [(bufferFold_spec frs s).1, hbuf]
    rfl
  have hemit : (frs.foldl bufferTextChunk s).emitted = s.emitted :=
    (bufferFold_spec frs s).2
  have hf := flushTextBuffer_spec (frs.foldl bufferTextChunk s)
  refine ⟨?_, ?_, hf.2.2, ?_⟩
  · intro hne
    rw [hf.2.1 (by rw [hjoin]; exact hne), hemit, hjoin]
  · intro he
    rw [hf.1 (by rw [hjoin]; exact he), hemit]
  · intro hg
    have hb2 : (bufferTextChunk (flushTextBuffer (frs.foldl bufferTextChunk s)) g).textBuffer
        = g := by
      have := (bufferFold_spec [g] (flushTextBuffer (frs.foldl bufferTextChunk s))).1
      simp only [List.foldl_cons, List.foldl_nil] at this
      rw [this, hf.2.2, empty_append_str]
    have he2 : (bufferTextChunk (flushTextBuffer (frs.foldl bufferTextChunk s)) g).emitted
        = (flushTextBuffer (frs.foldl bufferTextChunk s)).emitted := by
      have := (bufferFold_spec [g] (flushTextBuffer (frs.foldl bufferTextChunk s))).2
      simpa using this
    have hf2 := flushTextBuffer_spec
      (bufferTextChunk (flushTextBuffer (frs.foldl bufferTextChunk s)) g)
    rw [hf2.2.1 (by rw [hb2]; exact hg), he2, hb2]

/-- Witness for text_aggregation_amended: two fragments po and ke in one
window, then go in a second window. -/
theorem text_aggregation_amended_witness :
    (flushTextBuffer (["po", "ke"].foldl bufferTextChunk
        (initSession PermissionMode.bypassPermissions))).emitted =
      (initSession PermissionMode.bypassPermissions).emitted ++
        [SessionEvent.message_chunk (String.join ["po", "ke"])] ∧
    (flushTextBuffer (bufferTextChunk (flushTextBuffer (["po", "ke"].foldl bufferTextChunk
        (initSession PermissionMode.bypassPermissions))) "go")).emitted =
      (flushTextBuffer (["po", "ke"].foldl bufferTextChunk
        (initSession PermissionMode.bypassPermissions))).emitted ++
        [SessionEvent.message_chunk "go"] :=
  ⟨(text_aggregation_amended (initSession PermissionMode.bypassPermissions)
      ["po", "ke"] "go" rfl).1 (by decide),
   (text_aggregation_amended (initSession PermissionMode.bypassPermissions)
      ["po", "ke"] "go" rfl).2.2.2 (by decide)⟩

/- ### Claim C8: tool-call correlation -/

/-- Claim C8: after trackToolCall records a call id with its tool name, a
matching result handled before TTL expiry emits exactly one tool_result
event carrying the original tool name and removes the tracking entry;
after TTL eviction of the entry, and likewise for a call id never tracked,
the emitted tool_result event carries the name unknown. -/
theorem tool_correlation (s : SessionState) (id toolName : String) (isErr : Bool) :
    (handleToolResultBlock (trackToolCall s id toolName) id isErr).emitted =
      s.emitted ++ [SessionEvent.tool_result id toolName isErr] ∧
    alGet (handleToolResultBlock (trackToolCall s id toolName) id isErr).toolCallNames id =
      none ∧
    (handleToolResultBlock (toolCallTtlExpire (trackToolCall s id toolName) id) id
        isErr).emitted =
      s.emitted ++ [SessionEvent.tool_result id "unknown" isErr] ∧
    (alGet s.toolCallNames id = none →
      (handleToolResultBlock s id isErr).emitted =
        s.emitted ++ [SessionEvent.tool_result id "unknown" isErr]) := by
  have htrack : alGet (trackToolCall s id toolName).toolCallNames id = some toolName := by
    simp only [trackToolCall]
    exact alGet_alSet s.toolCallNames id toolName
  have htimer : (trackToolCall s id toolName).toolCallTimers.any (fun t => t = id) = true := by
    simp only [trackToolCall]
    exact any_append_singleton _ id
  refine ⟨?_, ?_, ?_, ?_⟩
  · simp [handleToolResultBlock, getToolName, emitEvent, htrack, trackToolCall, alGet_alSet]
  · simp only [handleToolResultBlock, getToolName, emitEvent]
    exact alGet_alErase _ id
  · have hevict : alGet (toolCallTtlExpire (trackToolCall s id toolName) id).toolCallNames id
        = none := by
      simp only [toolCallTtlExpire, htimer, if_pos]
      exact alGet_alErase _ id
    have hevem : (toolCallTtlExpire (trackToolCall s id toolName) id).emitted = s.emitted := by
      simp [toolCallTtlExpire, htimer, trackToolCall]
    simp [handleToolResultBlock, getToolName, emitEvent, hevict, hevem]
  · intro hnone
    simp [handleToolResultBlock, getToolName, emitEvent, hnone]

/-- Witness for tool_correlation: a result for a never-tracked call id on
the sample session is emitted with tool name unknown. -/
theorem tool_correlation_witness :
    (handleToolResultBlock sampleSession "t1" false).emitted =
      sampleSession.emitted ++ [SessionEvent.tool_result "t1" "unknown" false] :=
  (tool_correlation sampleSession "t1" "Bash" false).2.2.2 (by rfl)

/- ### Claim C9: startup orphan cleanup -/

/-- Claim C9: when the persisted lock record names a dead pid, the cleanup
pass — which runs before the fresh lock record is written — removes every
workspace directory that is listed in the lock sessionIds or is a
non-hidden directory, and only then does startup write the fresh lock
record for the current process; when the recorded pid is alive, no
directory is removed. -/
theorem orphan_cleanup (alive : Nat → Bool) (pid : Nat) (fs : FsState)
    (lock : LockRecord) (hl : fs.lockRecord = some lock) :
    (alive lock.pid = false →
      (cleanupOrphanedSessions alive fs).lockRecord = fs.lockRecord ∧
      (∀ d, d ∈ fs.workspaceDirNames →
        (lock.sessionIds.contains d = true ∨ isHiddenName d = false) →
        d ∉ (cleanupOrphanedSessions alive fs).workspaceDirNames) ∧
      (startupInit alive pid fs).workspaceDirNames =
        (cleanupOrphanedSessions alive fs).workspaceDirNames ∧
      (startupInit alive pid fs).lockRecord = some { pid := pid, sessionIds := [] }) ∧
    (alive lock.pid = true →
      (startupInit alive pid fs).workspaceDirNames = fs.workspaceDirNames) := by
  constructor
  · intro hdead
    refine ⟨?_, ?_, rfl, rfl⟩
    · simp [cleanupOrphanedSessions, hl, hdead]
    · intro d _ hcase hmem
      simp only [cleanupOrphanedSessions, hl, hdead, Bool.false_eq_true, if_false,
        List.mem_filter] at hmem
      rcases hcase with hlisted | hshown
      · rw [hlisted] at hmem
        simp at hmem
      · rw [hshown] at hmem
        simp at hmem
  · intro halive
    simp [startupInit, writeFreshLockRecord, cleanupOrphanedSessions, hl, halive]

/-- Concrete filesystem left by a dead process 77: listed workspace a,
unlisted workspace b, and the hidden lock file entry. -/
def deadLockFs : FsState :=
  { lockRecord := some { pid := 77, sessionIds := ["a"] },
    workspaceDirNames := ["a", "b", ".orchestrator.lock"] }

/-- Witness for orphan_cleanup on deadLockFs: both the listed directory a
and the unlisted non-hidden directory b are removed, and startup then
writes the fresh lock record. -/
theorem orphan_cleanup_witness :
    "a" ∉ (cleanupOrphanedSessions (fun _ => false) deadLockFs).workspaceDirNames ∧
    "b" ∉ (cleanupOrphanedSessions (fun _ => false) deadLockFs).workspaceDirNames ∧
    (startupInit (fun _ => false) 42 deadLockFs).lockRecord =
      some { pid := 42, sessionIds := [] } :=
  ⟨((orphan_cleanup (fun _ => false) 42 deadLockFs
      { pid := 77, sessionIds := ["a"] } rfl).1 rfl).2.1 "a" (by decide) (by decide),
   ((orphan_cleanup (fun _ => false) 42 deadLockFs
      { pid := 77, sessionIds := ["a"] } rfl).1 rfl).2.1 "b" (by decide) (by decide),
   ((orphan_cleanup (fun _ => false) 42 deadLockFs
      { pid := 77, sessionIds := ["a"] } rfl).1 rfl).2.2.2⟩

/- ### Claim C10: destructive message-history read -/

/-- Caching chunks appends them in arrival order and leaves the session
registry untouched. -/
theorem cacheFold_spec (cs : List String) (st : ManagerState) (sid : String) :
    (alGet (cs.foldl (fun acc c => cacheMessageChunk acc sid c) st).messageChunks
      sid).getD [] = (alGet st.messageChunks sid).getD [] ++ cs ∧
    (cs.foldl (fun acc c => cacheMessageChunk acc sid c) st).sessions = st.sessions := by
  induction cs generalizing st with
  | nil => simp
  | cons c rest ih =>
    have h1 : (alGet (cacheMessageChunk st sid c).messageChunks sid).getD [] =
        (alGet st.messageChunks sid).getD [] ++ [c] := by
      simp [cacheMessageChunk, alGet_alSet]
    have h2 : (cacheMessageChunk st sid c).sessions = st.sessions := rfl
    simp only [List.foldl_cons]
    constructor
    · rw [(ih (cacheMessageChunk st sid c)).1, h1, List.append_assoc]
      rfl
    · rw [(ih (cacheMessageChunk st sid c)).2, h2]

/-- Reading after caching chunks onto a registered session whose cache
entry is clear returns exactly those chunks. -/
theorem read_after_cache (st2 : ManagerState) (sid : String) (cs : List String)
    (hreg : (alGet st2.sessions sid).isSome = true)
    (hempty : alGet st2.messageChunks sid = none) :
    (readMessageHistory (cs.foldl (fun acc c => cacheMessageChunk acc sid c) st2) sid).1
      = Except.ok cs := by
  have hc := cacheFold_spec cs st2 sid
  have hreg2 : (alGet (cs.foldl (fun acc c => cacheMessageChunk acc sid c)
      st2).sessions sid).isSome = true := by
    rw [hc.2]
    exact hreg
  have hfold : (alGet (cs.foldl (fun acc c => cacheMessageChunk acc sid c)
      st2).messageChunks sid).getD [] = cs := by
    rw [hc.1, hempty]
    rfl
  simp [readMessageHistory, hreg2, hfold]

/-- Claim C10: for a session id present in the registry, readMessageHistory
returns the cached chunk contents in arrival order and clears the cache, so
an immediately following read returns the empty list, and a read after
caching further chunks returns exactly those chunks in order; for a session
id absent from the registry the call fails with the session-not-found error
and leaves the state unchanged. -/
theorem read_message_history_consume (st : ManagerState) (sid : String)
    (cs : List String) :
    ((alGet st.sessions sid).isSome = true →
      (readMessageHistory st sid).1 =
        Except.ok ((alGet st.messageChunks sid).getD []) ∧
      alGet ((readMessageHistory st sid).2).messageChunks sid = none ∧
      (readMessageHistory (readMessageHistory st sid).2 sid).1 = Except.ok [] ∧
      (readMessageHistory (cs.foldl (fun acc c => cacheMessageChunk acc sid c)
          (readMessageHistory st sid).2) sid).1 = Except.ok cs) ∧
    (alGet st.sessions sid = none →
      (readMessageHistory st sid).1 = Except.error MgrError.sessionNotFound ∧
      (readMessageHistory st sid).2 = st) := by
  constructor
  · intro hreg
    have h2 : ((readMessageHistory st sid).2).sessions = st.sessions := by
      simp [readMessageHistory, hreg]
    have hclear : alGet ((readMessageHistory st sid).2).messageChunks sid = none := by
      simp only [readMessageHistory, hreg, if_pos]
      exact alGet_alErase _ sid
    refine ⟨by simp [readMessageHistory, hreg], hclear, ?_, ?_⟩
    · exact read_after_cache (readMessageHistory st sid).2 sid []
        (by rw [h2]; exact hreg) hclear
    · exact read_after_cache (readMessageHistory st sid).2 sid cs
        (by rw [h2]; exact hreg) hclear
  · intro habs
    have : (alGet st.sessions sid).isSome = false := by
      rw [habs]
      rfl
    simp [readMessageHistory, this]

/-- Witness for read_message_history_consume on the sample manager. -/
theorem read_message_history_consume_witness :
    (readMessageHistory sampleManager "s1").1 =
      Except.ok ((alGet sampleManager.messageChunks "s1").getD []) ∧
    alGet ((readMessageHistory sampleManager "s1").2).messageChunks "s1" = none ∧
    (readMessageHistory (readMessageHistory sampleManager "s1").2 "s1").1 =
      Except.ok [] ∧
    (readMessageHistory ((["a", "b"]).foldl
        (fun acc c => cacheMessageChunk acc "s1" c)
        (readMessageHistory sampleManager "s1").2) "s1").1 = Except.ok ["a", "b"] :=
  (read_message_history_consume sampleManager "s1" ["a", "b"]).1 (by rfl)
